import Mathlib

/-!
Verification development for the tcping probe-and-statistics engine
(`statsprinter.go`).

Modelling conventions (shallow embedding):
* `time.Time` is modelled as nanoseconds since an epoch, as an `Int`;
  the Go zero value `time.Time\x7b\x7d` is `0`, and `IsZero()` is `= 0`.
* `time.Duration` (an `int64` of nanoseconds) is modelled as `Int`.
* Go `uint` counters are modelled as `ℕ`.
* `float32` RTT values and the float statistics formulas are modelled with
  exact rationals `ℚ`; this idealises rounding but keeps the formulas.
* `netip.Addr` is modelled as `ℕ`.
* External I/O enters as parameters: the outcome of a connection attempt,
  the result of `netip.ParseAddr` on the hostname, the result of
  `LookupNetIP` (`none` = lookup error), the value drawn by `rand.Intn`,
  and the current wall-clock time `now`.  `os.Exit(1)` becomes
  `Except.error ()`.
* Printer calls are modelled as emitted events (`event` below); fields of
  the Go structs that exist purely for rendering (the `printer`, the
  `ticker`, `startTime`/`endTime`, `destIsIP`, the hostname string, the
  network-interface on configuration and the IPv4/IPv6 family flags) are
  omitted, since no verified claim reads them.
-/

namespace Tcping

/-- Model of the Go struct `longestTime` (start, end, duration); the Go field
`end` is rendered `endT` because `end` is a Lean keyword. -/
structure longestTime where
  start : Int
  endT : Int
  duration : Int
deriving DecidableEq, Repr

/-- Model of the Go struct `rttResult` (min, max, average, hasResults),
with `float32` idealised as `ℚ`. -/
structure rttResult where
  min : ℚ
  max : ℚ
  average : ℚ
  hasResults : Bool
deriving DecidableEq, Repr

/-- Model of the Go struct `hostnameChange` (Addr, When). -/
structure hostnameChange where
  Addr : ℕ
  When : Int
deriving DecidableEq, Repr

/-- Model of the Go struct `userInput`; only the fields the statistics
engine reads are kept (see the file header for the omitted I/O fields). -/
structure userInput where
  ip : ℕ
  retryHostnameLookupAfter : ℕ
  probesBeforeQuit : ℕ
  timeout : Int
  intervalBetweenProbes : Int
  port : ℕ
  shouldRetryResolve : Bool
  showFailuresOnly : Bool
  showSourceAddress : Bool
deriving DecidableEq, Repr

/-- Model of the Go struct `tcping`: the session-tracker state.  Default
values are the Go zero values the program starts from. -/
structure tcping where
  startOfUptime : Int := 0
  startOfDowntime : Int := 0
  lastSuccessfulProbe : Int := 0
  lastUnsuccessfulProbe : Int := 0
  longestUptime : longestTime := ⟨0, 0, 0⟩
  longestDowntime : longestTime := ⟨0, 0, 0⟩
  rtt : List ℚ := []
  hostnameChanges : List hostnameChange := []
  userInput : userInput
  ongoingSuccessfulProbes : ℕ := 0
  ongoingUnsuccessfulProbes : ℕ := 0
  totalDowntime : Int := 0
  totalUptime : Int := 0
  totalSuccessfulProbes : ℕ := 0
  totalUnsuccessfulProbes : ℕ := 0
  retriedHostnameLookups : ℕ := 0
  rttResults : rttResult := ⟨0, 0, 0, false⟩
  destWasDown : Bool := false
deriving DecidableEq, Repr

/-- Events emitted through the printer interface; each constructor mirrors
one printer call made by the tracker. -/
inductive event where
  | probeSuccess (sourceAddr : String) (streak : ℕ) (rtt : ℚ)
  | probeFailure (streak : ℕ)
  | recovered (totalDowntime : Int)
  | retryingResolve
  | errorMsg
deriving DecidableEq, Repr

/-- Model of Go `newLongestTime`: `end = start.Add(duration)`. -/
def newLongestTime (startTime : Int) (duration : Int) : longestTime :=
  ⟨startTime, startTime + duration, duration⟩

/-- Model of Go `maxDuration`: the longer of two durations. -/
def maxDuration (x y : Int) : Int :=
  if x > y then x else y

/-- Model of Go `nanoToMillisecond`: fractional milliseconds from
nanoseconds (`float32(nano) / float32(time.Millisecond)`). -/
def nanoToMillisecond (nano : Int) : ℚ :=
  (nano : ℚ) / 1000000

/-- Model of the indexed loop inside Go `calcMinAvgMaxRttTime`: one pass
accumulating `sum` and updating `result.max` / `result.min`. -/
def rttLoop : List ℚ → ℚ → ℚ → ℚ → ℚ × ℚ × ℚ
  | [], sum, mn, mx => (sum, mn, mx)
  | x :: xs, sum, mn, mx =>
      rttLoop xs (sum + x) (if x < mn then x else mn) (if x > mx then x else mx)

/-- Model of Go `calcMinAvgMaxRttTime`: `result` starts as the zero struct,
`result.min` is seeded with `timeArr[0]` when the array is non-empty, the
loop runs, and on a non-empty array `hasResults` is set and
`average = sum / len`. -/
def calcMinAvgMaxRttTime (timeArr : List ℚ) : rttResult :=
  let arrLen := timeArr.length
  let min0 : ℚ := if arrLen > 0 then timeArr.headD 0 else 0
  let r := rttLoop timeArr 0 min0 0
  if arrLen > 0 then
    { min := r.2.1, max := r.2.2, average := r.1 / (arrLen : ℚ), hasResults := true }
  else
    { min := r.2.1, max := r.2.2, average := 0, hasResults := false }

/-- Model of Go `calcLongestUptime`: no-op when no uptime was ever open or
the interval is empty; first record is taken unconditionally; afterwards the
record is replaced when the new duration is `>=` the stored one. -/
def calcLongestUptime (t : tcping) (duration : Int) : tcping :=
  if t.startOfUptime = 0 ∨ duration = 0 then t
  else
    let lu := newLongestTime t.startOfUptime duration
    if t.longestUptime.endT = 0 then { t with longestUptime := lu }
    else if lu.duration ≥ t.longestUptime.duration then { t with longestUptime := lu }
    else t

/-- Model of Go `calcLongestDowntime`, symmetric to `calcLongestUptime`. -/
def calcLongestDowntime (t : tcping) (duration : Int) : tcping :=
  if t.startOfDowntime = 0 ∨ duration = 0 then t
  else
    let ld := newLongestTime t.startOfDowntime duration
    if t.longestDowntime.endT = 0 then { t with longestDowntime := ld }
    else if ld.duration ≥ t.longestDowntime.duration then { t with longestDowntime := ld }
    else t

/-- Model of Go `(*tcping).handleConnError`: on a failure while not down,
open the downtime at `connTime`, close the uptime interval through
`calcLongestUptime`, clear the uptime marker and mark the target down; on
every failure accrue `elapsed` into downtime, stamp the last failure,
bump both failure counters and emit a probe-failure event. -/
def handleConnError (t : tcping) (connTime elapsed : Int) : tcping × List event :=
  let t :=
    if !t.destWasDown then
      let t := { t with startOfDowntime := connTime }
      let uptime := t.startOfDowntime - t.startOfUptime
      let t := calcLongestUptime t uptime
      { t with startOfUptime := 0, destWasDown := true }
    else t
  let t := { t with
    totalDowntime := t.totalDowntime + elapsed,
    lastUnsuccessfulProbe := connTime,
    totalUnsuccessfulProbes := t.totalUnsuccessfulProbes + 1,
    ongoingUnsuccessfulProbes := t.ongoingUnsuccessfulProbes + 1 }
  (t, [event.probeFailure t.ongoingUnsuccessfulProbes])

/-- Model of Go `(*tcping).handleConnSuccess`: on a success while down,
restart the uptime at `connTime`, close the downtime interval through
`calcLongestDowntime`, emit the recovered event with the total downtime,
clear the downtime marker and both streak counters; on every success open
an uptime if none is open, accrue `elapsed` into uptime, stamp the last
success, bump both success counters, append the RTT sample and (unless
`showFailuresOnly`) emit the probe-success event. -/
def handleConnSuccess (t : tcping) (sourceAddr : String) (rtt : ℚ)
    (connTime elapsed : Int) : tcping × List event :=
  let p :=
    if t.destWasDown then
      let t := { t with startOfUptime := connTime }
      let downtime := t.startOfUptime - t.startOfDowntime
      let t := calcLongestDowntime t downtime
      ({ t with
          startOfDowntime := 0,
          destWasDown := false,
          ongoingUnsuccessfulProbes := 0,
          ongoingSuccessfulProbes := 0 },
       [event.recovered downtime])
    else (t, [])
  let t := p.1
  let t := if t.startOfUptime = 0 then { t with startOfUptime := connTime } else t
  let t := { t with
    totalUptime := t.totalUptime + elapsed,
    lastSuccessfulProbe := connTime,
    totalSuccessfulProbes := t.totalSuccessfulProbes + 1,
    ongoingSuccessfulProbes := t.ongoingSuccessfulProbes + 1,
    rtt := t.rtt ++ [rtt] }
  let evs :=
    if !t.userInput.showFailuresOnly then
      p.2 ++ [event.probeSuccess sourceAddr t.ongoingSuccessfulProbes rtt]
    else p.2
  (t, evs)

/-- Model of Go `tcpProbe`: the connection attempt itself is external I/O,
so its outcome enters as parameters (`ok` is `err == nil`, `connDuration`
the measured wall-clock time of the attempt, `sourceAddr` the local
endpoint on success).  `elapsed = maxDuration(connDuration, interval)` and
the outcome is dispatched to the matching handler. -/
def tcpProbe (t : tcping) (ok : Bool) (sourceAddr : String)
    (connStart connDuration : Int) : tcping × List event :=
  let rtt := nanoToMillisecond connDuration
  let elapsed := maxDuration connDuration t.userInput.intervalBetweenProbes
  if !ok then handleConnError t connStart elapsed
  else handleConnSuccess t sourceAddr rtt connStart elapsed

/-- Model of the packet-loss value computed by both
`colorPrinter.printStatistics` and `jsonPrinter.printStatistics`:
`float32(failures) / float32(total) * 100`, with the `math.IsNaN` guard
replacing the value by `0`.  Since `failures ≤ total`, the Go division is
NaN exactly when `total = 0` (the `0/0` case), so the guard is modelled as
`total = 0`; the float arithmetic is idealised as exact `ℚ`. -/
def printedPacketLoss (t : tcping) : ℚ :=
  let totalPackets := t.totalSuccessfulProbes + t.totalUnsuccessfulProbes
  let packetLoss : ℚ := (t.totalUnsuccessfulProbes : ℚ) / (totalPackets : ℚ) * 100
  if totalPackets = 0 then 0 else packetLoss

/-- Model of Go `selectResolvedIP` in its default branch (no `-4`/`-6`
family flag): when more than one address came back, one is chosen by
`rand.Intn(len)`, modelled as `pick % len`; a single address is used
directly.  The IPv4-only and IPv6-only branches filter the list first and
then pick the same way; no verified claim exercises the family filter, so
it is not modelled. -/
def selectResolvedIP (ipAddrs : List ℕ) (pick : ℕ) : ℕ :=
  let index := if ipAddrs.length > 1 then pick % ipAddrs.length else 0
  ipAddrs.getD index 0

/-- Model of Go `resolveHostname`: a hostname that already parses as a
literal address (`parsedLiteral = some ip`) is returned unchanged; else a
DNS lookup runs (`lookup`, `none` = error).  A lookup error is non-fatal
and returns the previously known address when at least one probe has
completed, and is fatal (`os.Exit(1)`, here `Except.error ()`) otherwise. -/
def resolveHostname (t : tcping) (parsedLiteral : Option ℕ)
    (lookup : Option (List ℕ)) (pick : ℕ) : Except Unit ℕ :=
  match parsedLiteral with
  | some ip => Except.ok ip
  | none =>
    match lookup with
    | none =>
      if t.totalSuccessfulProbes ≠ 0 ∨ t.totalUnsuccessfulProbes ≠ 0 then
        Except.ok t.userInput.ip
      else Except.error ()
    | some ipAddrs => Except.ok (selectResolvedIP ipAddrs pick)

/-- Events printed by Go `resolveHostname` on each of its paths: only the
fatal branch calls `printError` (here `event.errorMsg`) before exiting; the
literal-address path, the lookup-success path and — notably — the non-fatal
mid-session lookup-failure path print nothing.  (Fatal family-filter errors
inside `selectResolvedIP` are outside the model, as for `selectResolvedIP`
itself.) -/
def resolveHostnameEvents (t : tcping) (parsedLiteral : Option ℕ)
    (lookup : Option (List ℕ)) : List event :=
  match parsedLiteral with
  | some _ => []
  | none =>
    match lookup with
    | none =>
      if t.totalSuccessfulProbes ≠ 0 ∨ t.totalUnsuccessfulProbes ≠ 0 then []
      else [event.errorMsg]
    | some _ => []

/-- Model of Go `retryResolveHostname`: a no-op below the threshold; when
due it emits the retrying event, re-resolves, resets the consecutive
failure counter, bumps the retry counter, and appends an address-change
record (stamped `now`) exactly when the history is non-empty and its last
address differs from the newly resolved one. -/
def retryResolveHostname (t : tcping) (parsedLiteral : Option ℕ)
    (lookup : Option (List ℕ)) (pick : ℕ) (now : Int) :
    Except Unit (tcping × List event) :=
  if t.ongoingUnsuccessfulProbes ≥ t.userInput.retryHostnameLookupAfter then
    match resolveHostname t parsedLiteral lookup pick with
    | Except.error e => Except.error e
    | Except.ok newIp =>
      let t := { t with
        userInput := { t.userInput with ip := newIp },
        ongoingUnsuccessfulProbes := 0,
        retriedHostnameLookups := t.retriedHostnameLookups + 1 }
      if t.hostnameChanges = [] then Except.ok (t, [event.retryingResolve])
      else
        let lastAddr := (t.hostnameChanges.getLastD ⟨0, 0⟩).Addr
        if lastAddr ≠ t.userInput.ip then
          Except.ok
            ({ t with hostnameChanges := t.hostnameChanges ++ [⟨t.userInput.ip, now⟩] },
             [event.retryingResolve])
        else Except.ok (t, [event.retryingResolve])
  else Except.ok (t, [])

/-- Model of Go `(*tcping).printStats`: provisionally close whichever
interval is open using `now` (`time.Since`), through the same
`calcLongest…` updaters, then recompute `rttResults` from the samples.
The trailing `printStatistics` call is output only. -/
def printStats (t : tcping) (now : Int) : tcping :=
  let t :=
    if t.destWasDown then calcLongestDowntime t (now - t.startOfDowntime)
    else calcLongestUptime t (now - t.startOfUptime)
  { t with rttResults := calcMinAvgMaxRttTime t.rtt }

/-- Model of the tracker state right after `setGenericArgs`: the zero-value
`tcping` with the user input installed and the address-change history
seeded with the initial resolution result. -/
def initialTcping (u : userInput) (seedTime : Int) : tcping :=
  { userInput := u, hostnameChanges := [⟨u.ip, seedTime⟩] }

/-- One input consumed by an iteration of the main loop: a classified probe
outcome, a retry-resolve attempt, or an interactive snapshot request. -/
inductive probeInput where
  | success (sourceAddr : String) (rtt : ℚ) (connTime elapsed : Int)
  | failure (connTime elapsed : Int)
  | retry (parsedLiteral : Option ℕ) (lookup : Option (List ℕ)) (pick : ℕ) (now : Int)
  | snapshot (now : Int)
deriving DecidableEq, Repr

/-- Session-tracker step relation of the main loop: each input is
dispatched to the function the loop calls for it; a fatal exit surfaces as
`Except.error`. -/
def step (t : tcping) (i : probeInput) : Except Unit tcping :=
  match i with
  | probeInput.success sa rtt ct e => Except.ok (handleConnSuccess t sa rtt ct e).1
  | probeInput.failure ct e => Except.ok (handleConnError t ct e).1
  | probeInput.retry pl lk pk now =>
      (retryResolveHostname t pl lk pk now).map (fun p => p.1)
  | probeInput.snapshot now => Except.ok (printStats t now)

/-- States reachable from a freshly configured session through the two
tracker entry points `handleConnSuccess` and `handleConnError`. -/
inductive ReachableT : tcping → Prop where
  | init (u : userInput) (seedTime : Int) : ReachableT (initialTcping u seedTime)
  | succ (t : tcping) (sa : String) (rtt : ℚ) (ct e : Int) :
      ReachableT t → ReachableT (handleConnSuccess t sa rtt ct e).1
  | fail (t : tcping) (ct e : Int) :
      ReachableT t → ReachableT (handleConnError t ct e).1

/-- Local source address used by the concrete witness states. -/
def sAddr : String := "src"

/-- Concrete configuration used by the closed witness statements. -/
def uFix : userInput :=
  { ip := 5, retryHostnameLookupAfter := 3, probesBeforeQuit := 0,
    timeout := 1000000000, intervalBetweenProbes := 1000000000, port := 443,
    shouldRetryResolve := true, showFailuresOnly := false,
    showSourceAddress := false }

/-- Closed form of `calcLongestUptime`: only the `longestUptime` field ever
changes, and it changes to the stated record. -/
theorem calcLongestUptime_eq (t : tcping) (d : Int) :
    calcLongestUptime t d =
      { t with longestUptime :=
          if t.startOfUptime = 0 ∨ d = 0 then t.longestUptime
          else if t.longestUptime.endT = 0 then newLongestTime t.startOfUptime d
          else if (newLongestTime t.startOfUptime d).duration ≥ t.longestUptime.duration then
            newLongestTime t.startOfUptime d
          else t.longestUptime } := by
  simp only [calcLongestUptime]
  split_ifs <;> rfl

/-- Closed form of `calcLongestDowntime`, symmetric to
`calcLongestUptime_eq`. -/
theorem calcLongestDowntime_eq (t : tcping) (d : Int) :
    calcLongestDowntime t d =
      { t with longestDowntime :=
          if t.startOfDowntime = 0 ∨ d = 0 then t.longestDowntime
          else if t.longestDowntime.endT = 0 then newLongestTime t.startOfDowntime d
          else if (newLongestTime t.startOfDowntime d).duration ≥ t.longestDowntime.duration then
            newLongestTime t.startOfDowntime d
          else t.longestDowntime } := by
  simp only [calcLongestDowntime]
  split_ifs <;> rfl

/-- Go `maxDuration` agrees with the mathematical `max`. -/
theorem maxDuration_eq_max (x y : Int) : maxDuration x y = max x y := by
  unfold maxDuration
  rcases lt_or_le y x with h | h
  · rw [if_pos h, max_eq_left h.le]
  · rw [if_neg (not_lt.mpr h), max_eq_right h]

/-- C2: for every probe, the elapsed value accrued into accumulated uptime
(on success) or accumulated downtime (on failure) is
`max(measuredConnectDuration, configuredInterval)`, and the opposite
accumulator is untouched, so accounted time never under-counts wall-clock
progress when an attempt resolves faster than the probing cadence. -/
theorem tcpProbe_accrues_max_elapsed (t : tcping) (ok : Bool) (sa : String)
    (cs cd : Int) :
    maxDuration cd t.userInput.intervalBetweenProbes
      = max cd t.userInput.intervalBetweenProbes ∧
    (ok = true →
      (tcpProbe t ok sa cs cd).1.totalUptime
        = t.totalUptime + max cd t.userInput.intervalBetweenProbes ∧
      (tcpProbe t ok sa cs cd).1.totalDowntime = t.totalDowntime) ∧
    (ok = false →
      (tcpProbe t ok sa cs cd).1.totalDowntime
        = t.totalDowntime + max cd t.userInput.intervalBetweenProbes ∧
      (tcpProbe t ok sa cs cd).1.totalUptime = t.totalUptime) := by
  refine ⟨maxDuration_eq_max _ _, ?_, ?_⟩
  · rintro rfl
    simp only [tcpProbe, handleConnSuccess, maxDuration_eq_max, Bool.not_true,
      Bool.false_eq_true, if_false]
    split
    · simp [calcLongestDowntime_eq]
    · simp only []
      constructor <;> · split <;> simp
  · rintro rfl
    simp only [tcpProbe, handleConnError, maxDuration_eq_max, Bool.not_false,
      if_true]
    split <;> simp [calcLongestUptime_eq]

/-- Witness for C2 at a concrete state: one successful probe whose
connection time is shorter than the configured interval accrues exactly
the interval into uptime. -/
theorem tcpProbe_accrues_max_elapsed_witness :
    (true = true →
      (tcpProbe (initialTcping uFix 0) true sAddr 10 500).1.totalUptime
        = (initialTcping uFix 0).totalUptime
            + max 500 (initialTcping uFix 0).userInput.intervalBetweenProbes ∧
      (tcpProbe (initialTcping uFix 0) true sAddr 10 500).1.totalDowntime
        = (initialTcping uFix 0).totalDowntime) :=
  (tcpProbe_accrues_max_elapsed (initialTcping uFix 0) true sAddr 10 500).2.1

/-- C4: the packet-loss percentage printed by the statistics report equals
`failures / (successes + failures) * 100` whenever at least one probe ran,
is always within `[0, 100]`, and is `0` (not NaN) when the total probe
count is `0`. -/
theorem printedPacketLoss_spec (t : tcping) :
    (t.totalSuccessfulProbes + t.totalUnsuccessfulProbes = 0 →
      printedPacketLoss t = 0) ∧
    (t.totalSuccessfulProbes + t.totalUnsuccessfulProbes ≠ 0 →
      printedPacketLoss t =
        (t.totalUnsuccessfulProbes : ℚ)
          / ((t.totalSuccessfulProbes : ℚ) + (t.totalUnsuccessfulProbes : ℚ))
          * 100) ∧
    0 ≤ printedPacketLoss t ∧ printedPacketLoss t ≤ 100 := by
  simp only [printedPacketLoss]
  refine ⟨fun h => by simp [h], fun h => ?_, ?_, ?_⟩
  · rw [if_neg h]
    push_cast
    ring
  · split_ifs with h
    · norm_num
    · positivity
  · split_ifs with h
    · norm_num
    · have hpos : (0 : ℚ) < ((t.totalSuccessfulProbes + t.totalUnsuccessfulProbes : ℕ) : ℚ) := by
        exact_mod_cast Nat.pos_of_ne_zero h
      have hle : ((t.totalUnsuccessfulProbes : ℕ) : ℚ)
          ≤ ((t.totalSuccessfulProbes + t.totalUnsuccessfulProbes : ℕ) : ℚ) := by
        exact_mod_cast Nat.le_add_left _ _
      have hdiv : (t.totalUnsuccessfulProbes : ℚ)
          / ((t.totalSuccessfulProbes + t.totalUnsuccessfulProbes : ℕ) : ℚ) ≤ 1 :=
        div_le_one_of_le₀ hle hpos.le
      calc (t.totalUnsuccessfulProbes : ℚ)
            / ((t.totalSuccessfulProbes + t.totalUnsuccessfulProbes : ℕ) : ℚ) * 100
          ≤ 1 * 100 := by
            exact mul_le_mul_of_nonneg_right hdiv (by norm_num)
        _ = 100 := by norm_num

/-- Witness for C4 at a concrete state: one success and three failures give
a 75 percent loss. -/
theorem printedPacketLoss_spec_witness :
    printedPacketLoss
        { (initialTcping uFix 0) with
            totalSuccessfulProbes := 1, totalUnsuccessfulProbes := 3 }
      = ((3 : ℚ) / ((1 : ℚ) + (3 : ℚ)) * 100) := by
  have h := (printedPacketLoss_spec
    { (initialTcping uFix 0) with
        totalSuccessfulProbes := 1, totalUnsuccessfulProbes := 3 }).2.1
      (by decide)
  simpa using h

/-- Counterexample to C7 as stated: at a mid-session state (one probe has
completed) with a failing lookup, resolution is indeed non-fatal and
returns the previously known address — but it emits no informational or
error event at all, so the failure is *not* reported; the non-fatal path
is silent. -/
theorem resolveHostname_silent_midsession :
    resolveHostname
        { (initialTcping uFix 0) with totalSuccessfulProbes := 1 } none none 0
      = Except.ok uFix.ip ∧
    event.errorMsg ∉
      resolveHostnameEvents
        { (initialTcping uFix 0) with totalSuccessfulProbes := 1 } none none :=
  ⟨rfl, by decide⟩

/-- Amended C7: with the hostname not a literal address and the DNS lookup
failing, resolution is fatal (error reported, `os.Exit(1)`) exactly when no
probe has yet completed — the error event is printed only on that fatal
path; once at least one probe (successful or not) has run, the failure is
non-fatal, the previously known address is returned unchanged and the
session keeps probing, but the failure itself is not reported (no
informational or error event is emitted on the non-fatal path). -/
theorem resolveHostname_failure_spec (t : tcping) (pick : ℕ) :
    (resolveHostname t none none pick = Except.error () ↔
      t.totalSuccessfulProbes = 0 ∧ t.totalUnsuccessfulProbes = 0) ∧
    (t.totalSuccessfulProbes = 0 ∧ t.totalUnsuccessfulProbes = 0 →
      resolveHostnameEvents t none none = [event.errorMsg]) ∧
    ((t.totalSuccessfulProbes ≠ 0 ∨ t.totalUnsuccessfulProbes ≠ 0) →
      resolveHostname t none none pick = Except.ok t.userInput.ip ∧
      resolveHostnameEvents t none none = []) := by
  refine ⟨?_, ?_, ?_⟩
  · by_cases h : t.totalSuccessfulProbes ≠ 0 ∨ t.totalUnsuccessfulProbes ≠ 0
    · simp only [resolveHostname, if_pos h]
      constructor
      · intro hc
        exact absurd hc (by simp)
      · intro hc
        rcases h with h | h
        · exact absurd hc.1 h
        · exact absurd hc.2 h
    · push_neg at h
      simp only [resolveHostname, if_neg (by tauto : ¬(t.totalSuccessfulProbes ≠ 0 ∨ t.totalUnsuccessfulProbes ≠ 0))]
      constructor
      · intro _
        exact h
      · intro _
        trivial
  · intro h
    simp only [resolveHostnameEvents,
      if_neg (by tauto : ¬(t.totalSuccessfulProbes ≠ 0 ∨ t.totalUnsuccessfulProbes ≠ 0))]
  · intro h
    exact ⟨by simp only [resolveHostname, if_pos h],
      by simp only [resolveHostnameEvents, if_pos h]⟩

/-- Witness for the amended C7 at a concrete state: after one successful
probe, a lookup failure returns the old address and prints nothing. -/
theorem resolveHostname_failure_spec_witness :
    resolveHostname
        { (initialTcping uFix 0) with totalSuccessfulProbes := 1 } none none 0
      = Except.ok uFix.ip ∧
    resolveHostnameEvents
        { (initialTcping uFix 0) with totalSuccessfulProbes := 1 } none none
      = [] :=
  (resolveHostname_failure_spec
    { (initialTcping uFix 0) with totalSuccessfulProbes := 1 } 0).2.2
    (Or.inl (by decide))

/-- C3: longest-uptime and longest-downtime records are monotonically
non-decreasing in duration; once the record is set, an update replaces it
exactly when the newly closed interval's duration is `>=` the stored one
(so a later equal-duration interval replaces the earlier one), and a
zero-duration or never-opened interval never changes anything.  The two
hypotheses record that an unset record (`end = 0`) carries duration `0`,
which holds in every reachable state. -/
theorem calcLongest_monotone_tiebreak (t : tcping) (d : Int) (hd : 0 ≤ d)
    (hu : t.longestUptime.endT = 0 → t.longestUptime.duration = 0)
    (hw : t.longestDowntime.endT = 0 → t.longestDowntime.duration = 0) :
    (t.longestUptime.duration ≤ (calcLongestUptime t d).longestUptime.duration) ∧
    (t.startOfUptime ≠ 0 → d ≠ 0 →
      (calcLongestUptime t d).longestUptime =
        (if t.longestUptime.duration ≤ d then newLongestTime t.startOfUptime d
         else t.longestUptime)) ∧
    ((d = 0 ∨ t.startOfUptime = 0) → calcLongestUptime t d = t) ∧
    (t.longestDowntime.duration ≤ (calcLongestDowntime t d).longestDowntime.duration) ∧
    (t.startOfDowntime ≠ 0 → d ≠ 0 →
      (calcLongestDowntime t d).longestDowntime =
        (if t.longestDowntime.duration ≤ d then newLongestTime t.startOfDowntime d
         else t.longestDowntime)) ∧
    ((d = 0 ∨ t.startOfDowntime = 0) → calcLongestDowntime t d = t) := by
  refine ⟨?_, ?_, ?_, ?_, ?_, ?_⟩
  · rw [calcLongestUptime_eq]
    simp only [newLongestTime, ge_iff_le]
    split_ifs with h1 h2 h3
    · exact le_refl _
    · simpa [hu h2] using hd
    · exact h3
    · exact le_refl _
  · intro hs hd0
    rw [calcLongestUptime_eq]
    simp only [newLongestTime, ge_iff_le]
    rw [if_neg (by tauto : ¬(t.startOfUptime = 0 ∨ d = 0))]
    by_cases h2 : t.longestUptime.endT = 0
    · rw [if_pos h2, if_pos (by rw [hu h2]; exact hd)]
    · rw [if_neg h2]
  · intro h
    rw [calcLongestUptime_eq, if_pos (by tauto)]
  · rw [calcLongestDowntime_eq]
    simp only [newLongestTime, ge_iff_le]
    split_ifs with h1 h2 h3
    · exact le_refl _
    · simpa [hw h2] using hd
    · exact h3
    · exact le_refl _
  · intro hs hd0
    rw [calcLongestDowntime_eq]
    simp only [newLongestTime, ge_iff_le]
    rw [if_neg (by tauto : ¬(t.startOfDowntime = 0 ∨ d = 0))]
    by_cases h2 : t.longestDowntime.endT = 0
    · rw [if_pos h2, if_pos (by rw [hw h2]; exact hd)]
    · rw [if_neg h2]
  · intro h
    rw [calcLongestDowntime_eq, if_pos (by tauto)]

/-- Concrete tracker state with an open uptime and a stored longest-uptime
record, used by witness statements. -/
def tLong : tcping :=
  { initialTcping uFix 0 with startOfUptime := 2, longestUptime := ⟨1, 4, 3⟩ }

/-- Witness for C3 at a concrete state: closing a 5-unit interval on top of
a stored 3-unit record does not decrease the stored duration. -/
theorem calcLongest_monotone_tiebreak_witness :
    tLong.longestUptime.duration ≤ (calcLongestUptime tLong 5).longestUptime.duration :=
  (calcLongest_monotone_tiebreak tLong 5 (by decide) (by decide) (by decide)).1

/-- Running sum of the one-pass loop of `calcMinAvgMaxRttTime`. -/
theorem rttLoop_fst (l : List ℚ) (s mn mx : ℚ) :
    (rttLoop l s mn mx).1 = s + l.sum := by
  induction l generalizing s mn mx with
  | nil => simp [rttLoop]
  | cons y ys ih => simp [rttLoop, ih, add_assoc]

/-- The running minimum of the loop is a lower bound of its seed and of
every element scanned. -/
theorem rttLoop_min_le (l : List ℚ) (s mn mx : ℚ) :
    (rttLoop l s mn mx).2.1 ≤ mn ∧ ∀ x ∈ l, (rttLoop l s mn mx).2.1 ≤ x := by
  induction l generalizing s mn mx with
  | nil => simp [rttLoop]
  | cons y ys ih =>
    simp only [rttLoop]
    have hseed : (if y < mn then y else mn) ≤ mn := by
      split
      · exact le_of_lt (by assumption)
      · exact le_refl _
    have hseedy : (if y < mn then y else mn) ≤ y := by
      split
      · exact le_refl _
      · exact le_of_not_lt (by assumption)
    refine ⟨le_trans (ih ..).1 hseed, ?_⟩
    intro x hx
    rcases List.mem_cons.mp hx with rfl | hx
    · exact le_trans (ih ..).1 hseedy
    · exact (ih ..).2 x hx

/-- The running maximum of the loop is an upper bound of its seed and of
every element scanned. -/
theorem rttLoop_le_max (l : List ℚ) (s mn mx : ℚ) :
    mx ≤ (rttLoop l s mn mx).2.2 ∧ ∀ x ∈ l, x ≤ (rttLoop l s mn mx).2.2 := by
  induction l generalizing s mn mx with
  | nil => simp [rttLoop]
  | cons y ys ih =>
    simp only [rttLoop]
    have hseed : mx ≤ (if y > mx then y else mx) := by
      split
      · exact le_of_lt (by assumption)
      · exact le_refl _
    have hseedy : y ≤ (if y > mx then y else mx) := by
      split
      · exact le_refl _
      · exact le_of_not_lt (by assumption)
    refine ⟨le_trans hseed (ih ..).1, ?_⟩
    intro x hx
    rcases List.mem_cons.mp hx with rfl | hx
    · exact le_trans hseedy (ih ..).1
    · exact (ih ..).2 x hx

/-- Lower bound on a list sum from a uniform lower bound on elements. -/
theorem length_mul_le_sum (l : List ℚ) (m : ℚ) (h : ∀ x ∈ l, m ≤ x) :
    (l.length : ℚ) * m ≤ l.sum := by
  induction l with
  | nil => simp
  | cons y ys ih =>
    have h1 : m ≤ y := h y (by simp)
    have h2 := ih (fun x hx => h x (by simp [hx]))
    simp only [List.length_cons, List.sum_cons]
    push_cast
    nlinarith

/-- Upper bound on a list sum from a uniform upper bound on elements. -/
theorem sum_le_length_mul (l : List ℚ) (m : ℚ) (h : ∀ x ∈ l, x ≤ m) :
    l.sum ≤ (l.length : ℚ) * m := by
  induction l with
  | nil => simp
  | cons y ys ih =>
    have h1 : y ≤ m := h y (by simp)
    have h2 := ih (fun x hx => h x (by simp [hx]))
    simp only [List.length_cons, List.sum_cons]
    push_cast
    nlinarith

/-- C5: for every non-empty RTT sample sequence the recomputed summary
satisfies `min <= avg <= max` with `hasResults = true`; the samples
`[10, 20, 30]` give exactly `{min := 10, avg := 20, max := 30}`; the empty
sequence gives `hasResults = false`. -/
theorem calcMinAvgMaxRttTime_spec :
    (∀ l : List ℚ, l ≠ [] →
      (calcMinAvgMaxRttTime l).hasResults = true ∧
      (calcMinAvgMaxRttTime l).min ≤ (calcMinAvgMaxRttTime l).average ∧
      (calcMinAvgMaxRttTime l).average ≤ (calcMinAvgMaxRttTime l).max) ∧
    calcMinAvgMaxRttTime [10, 20, 30]
      = { min := 10, max := 30, average := 20, hasResults := true } ∧
    (calcMinAvgMaxRttTime []).hasResults = false := by
  refine ⟨?_, by simp only [calcMinAvgMaxRttTime, rttLoop]; norm_num, by decide⟩
  intro l hl
  have hlen : 0 < l.length := List.length_pos.mpr hl
  have hlenq : (0 : ℚ) < (l.length : ℚ) := by exact_mod_cast hlen
  have hmin := rttLoop_min_le l 0 (l.headD 0) 0
  have hmax := rttLoop_le_max l 0 (l.headD 0) 0
  have hsum := rttLoop_fst l 0 (l.headD 0) 0
  simp only [calcMinAvgMaxRttTime, gt_iff_lt, if_pos hlen]
  refine ⟨by trivial, ?_, ?_⟩
  · rw [le_div_iff₀ hlenq, mul_comm]
    rw [hsum, zero_add]
    exact length_mul_le_sum l _ hmin.2
  · rw [div_le_iff₀ hlenq, mul_comm]
    rw [hsum, zero_add]
    exact sum_le_length_mul l _ hmax.2

/-- Witness for C5 at a concrete input: `[10, 20, 30]` is non-empty and
its summary is ordered with results present. -/
theorem calcMinAvgMaxRttTime_spec_witness :
    (calcMinAvgMaxRttTime [10, 20, 30]).hasResults = true ∧
    (calcMinAvgMaxRttTime [10, 20, 30]).min ≤ (calcMinAvgMaxRttTime [10, 20, 30]).average ∧
    (calcMinAvgMaxRttTime [10, 20, 30]).average ≤ (calcMinAvgMaxRttTime [10, 20, 30]).max :=
  calcMinAvgMaxRttTime_spec.1 [10, 20, 30] (by decide)

/-- C1: on a success while the tracker is Down, the state flips to Up, the
downtime interval is closed with duration `now - startOfDowntime` and fed
to the longest-downtime updater (the `>=` rule), a recovered event carrying
that downtime is emitted, both streak counters are reset (so the emitted
success streak is 1), the downtime marker is cleared and the uptime starts
at `now`. -/
theorem handleConnSuccess_recovery (t : tcping) (sa : String) (rtt : ℚ)
    (ct e : Int) (hd : t.destWasDown = true) :
    (handleConnSuccess t sa rtt ct e).1.destWasDown = false ∧
    (handleConnSuccess t sa rtt ct e).1.startOfDowntime = 0 ∧
    (handleConnSuccess t sa rtt ct e).1.startOfUptime = ct ∧
    (handleConnSuccess t sa rtt ct e).1.longestDowntime
      = (calcLongestDowntime t (ct - t.startOfDowntime)).longestDowntime ∧
    (handleConnSuccess t sa rtt ct e).1.ongoingSuccessfulProbes = 1 ∧
    (handleConnSuccess t sa rtt ct e).1.ongoingUnsuccessfulProbes = 0 ∧
    event.recovered (ct - t.startOfDowntime) ∈ (handleConnSuccess t sa rtt ct e).2 ∧
    (t.userInput.showFailuresOnly = false →
      (handleConnSuccess t sa rtt ct e).2
        = [event.recovered (ct - t.startOfDowntime),
           event.probeSuccess sa 1 rtt]) := by
  simp only [handleConnSuccess, hd, if_true, calcLongestDowntime_eq]
  split_ifs <;> simp_all

/-- Concrete tracker state currently Down, used by witness statements. -/
def tDown : tcping :=
  { initialTcping uFix 0 with
    destWasDown := true, startOfDowntime := 2, ongoingUnsuccessfulProbes := 4 }

/-- Witness for C1 at a concrete Down state: the recovery probe flips the
state and emits a success streak of 1. -/
theorem handleConnSuccess_recovery_witness :
    (handleConnSuccess tDown sAddr 12 9 10).1.destWasDown = false ∧
    (handleConnSuccess tDown sAddr 12 9 10).1.ongoingSuccessfulProbes = 1 :=
  ⟨(handleConnSuccess_recovery tDown sAddr 12 9 10 rfl).1,
   (handleConnSuccess_recovery tDown sAddr 12 9 10 rfl).2.2.2.2.1⟩

/-- Field-level effect of `handleConnSuccess` for any prior state. -/
theorem handleConnSuccess_fields (t : tcping) (sa : String) (rtt : ℚ)
    (ct e : Int) :
    (handleConnSuccess t sa rtt ct e).1.ongoingSuccessfulProbes
      = (if t.destWasDown then 0 else t.ongoingSuccessfulProbes) + 1 ∧
    (handleConnSuccess t sa rtt ct e).1.ongoingUnsuccessfulProbes
      = (if t.destWasDown then 0 else t.ongoingUnsuccessfulProbes) ∧
    (handleConnSuccess t sa rtt ct e).1.totalSuccessfulProbes
      = t.totalSuccessfulProbes + 1 ∧
    (handleConnSuccess t sa rtt ct e).1.rtt = t.rtt ++ [rtt] ∧
    (handleConnSuccess t sa rtt ct e).1.destWasDown = false := by
  cases hd : t.destWasDown <;>
    simp only [handleConnSuccess, hd, calcLongestDowntime_eq, if_true, if_false,
      Bool.false_eq_true, Bool.true_eq_false] <;>
    split_ifs <;> simp_all

/-- Field-level effect of `handleConnError` for any prior state. -/
theorem handleConnError_fields (t : tcping) (ct e : Int) :
    (handleConnError t ct e).1.ongoingSuccessfulProbes = t.ongoingSuccessfulProbes ∧
    (handleConnError t ct e).1.ongoingUnsuccessfulProbes
      = t.ongoingUnsuccessfulProbes + 1 ∧
    (handleConnError t ct e).1.totalSuccessfulProbes = t.totalSuccessfulProbes ∧
    (handleConnError t ct e).1.rtt = t.rtt ∧
    (handleConnError t ct e).1.destWasDown = true := by
  cases hd : t.destWasDown <;>
    simp only [handleConnError, hd, calcLongestUptime_eq, if_true, if_false,
      Bool.not_true, Bool.not_false, Bool.false_eq_true, Bool.true_eq_false] <;>
    simp_all

/-- The streak counters are untouched by a snapshot. -/
theorem printStats_streaks (t : tcping) (now : Int) :
    (printStats t now).ongoingSuccessfulProbes = t.ongoingSuccessfulProbes ∧
    (printStats t now).ongoingUnsuccessfulProbes = t.ongoingUnsuccessfulProbes := by
  cases hd : t.destWasDown <;>
    simp [printStats, hd, calcLongestUptime_eq, calcLongestDowntime_eq]

/-- Concrete tracker state with an open uptime longer than the stored
longest-uptime record, exhibiting the snapshot mutation. -/
def tcSnap : tcping :=
  { initialTcping uFix 0 with startOfUptime := 1, longestUptime := ⟨1, 6, 5⟩ }

/-- Counterexample to C8: a mid-run snapshot does *not* leave tracker state
unchanged — at `tcSnap` with `now = 100` the provisional finalization
overwrites the stored longest-uptime record. -/
theorem printStats_mutates_midrun : printStats tcSnap 100 ≠ tcSnap := by
  decide

/-- Amended C8: `printStats` recomputes the RTT summary into `rttResults`
and provisionally finalizes the currently open interval using `now`,
updating the stored longest record of that interval under the usual `>=`
rule even mid-run; every other tracker field is left unchanged. -/
theorem printStats_spec (t : tcping) (now : Int) :
    (printStats t now).rttResults = calcMinAvgMaxRttTime t.rtt ∧
    (t.destWasDown = true →
      (printStats t now).longestDowntime
        = (calcLongestDowntime t (now - t.startOfDowntime)).longestDowntime ∧
      (printStats t now).longestUptime = t.longestUptime) ∧
    (t.destWasDown = false →
      (printStats t now).longestUptime
        = (calcLongestUptime t (now - t.startOfUptime)).longestUptime ∧
      (printStats t now).longestDowntime = t.longestDowntime) ∧
    (printStats t now).totalSuccessfulProbes = t.totalSuccessfulProbes ∧
    (printStats t now).totalUnsuccessfulProbes = t.totalUnsuccessfulProbes ∧
    (printStats t now).ongoingSuccessfulProbes = t.ongoingSuccessfulProbes ∧
    (printStats t now).ongoingUnsuccessfulProbes = t.ongoingUnsuccessfulProbes ∧
    (printStats t now).totalUptime = t.totalUptime ∧
    (printStats t now).totalDowntime = t.totalDowntime ∧
    (printStats t now).startOfUptime = t.startOfUptime ∧
    (printStats t now).startOfDowntime = t.startOfDowntime ∧
    (printStats t now).destWasDown = t.destWasDown ∧
    (printStats t now).rtt = t.rtt ∧
    (printStats t now).hostnameChanges = t.hostnameChanges := by
  cases hd : t.destWasDown <;>
    simp [printStats, hd, calcLongestUptime_eq, calcLongestDowntime_eq]

/-- Witness for the amended C8 at a concrete state: the snapshot updates
the longest-uptime record as `calcLongestUptime` dictates and keeps the
probe totals. -/
theorem printStats_spec_witness :
    (printStats tcSnap 100).longestUptime
      = (calcLongestUptime tcSnap (100 - tcSnap.startOfUptime)).longestUptime ∧
    (printStats tcSnap 100).longestDowntime = tcSnap.longestDowntime :=
  (printStats_spec tcSnap 100).2.2.1 rfl

/-- C6: `retryResolveHostname` is a no-op below the failure threshold; when
due (and resolution succeeds, returning `newIp`) it installs the new
address, zeroes the consecutive-failure counter, bumps the retry counter by
one, and appends a stamped address-change record exactly when the new
address differs from the last recorded one — so the history length never
shrinks. -/
theorem retryResolveHostname_spec (t : tcping) (pl : Option ℕ)
    (lk : Option (List ℕ)) (pk : ℕ) (now : Int) (newIp : ℕ)
    (t' : tcping) (evs : List event)
    (hr : resolveHostname t pl lk pk = Except.ok newIp)
    (hres : retryResolveHostname t pl lk pk now = Except.ok (t', evs)) :
    (t.ongoingUnsuccessfulProbes < t.userInput.retryHostnameLookupAfter →
      t' = t ∧ evs = []) ∧
    (t.userInput.retryHostnameLookupAfter ≤ t.ongoingUnsuccessfulProbes →
      t'.userInput.ip = newIp ∧
      t'.ongoingUnsuccessfulProbes = 0 ∧
      t'.retriedHostnameLookups = t.retriedHostnameLookups + 1 ∧
      (t.hostnameChanges ≠ [] →
        (((t.hostnameChanges.getLastD ⟨0, 0⟩).Addr ≠ newIp →
            t'.hostnameChanges = t.hostnameChanges ++ [⟨newIp, now⟩]) ∧
         ((t.hostnameChanges.getLastD ⟨0, 0⟩).Addr = newIp →
            t'.hostnameChanges = t.hostnameChanges)))) ∧
    t.hostnameChanges.length ≤ t'.hostnameChanges.length := by
  unfold retryResolveHostname at hres
  by_cases hdue : t.ongoingUnsuccessfulProbes ≥ t.userInput.retryHostnameLookupAfter
  · rw [if_pos hdue, hr] at hres
    dsimp only at hres
    split_ifs at hres with h1 h2
    · simp only [Except.ok.injEq, Prod.mk.injEq] at hres
      obtain ⟨ht, hevs⟩ := hres
      subst ht
      refine ⟨fun hlt => absurd hdue (not_le.mpr hlt), fun _ => ?_, le_refl _⟩
      exact ⟨rfl, rfl, rfl, fun hne => absurd h1 hne⟩
    · simp only [Except.ok.injEq, Prod.mk.injEq] at hres
      obtain ⟨ht, hevs⟩ := hres
      subst ht
      refine ⟨fun hlt => absurd hdue (not_le.mpr hlt), fun _ => ?_, by simp⟩
      exact ⟨rfl, rfl, rfl,
        fun _ => ⟨fun _ => rfl, fun heq => absurd heq h2⟩⟩
    · simp only [Except.ok.injEq, Prod.mk.injEq] at hres
      obtain ⟨ht, hevs⟩ := hres
      subst ht
      refine ⟨fun hlt => absurd hdue (not_le.mpr hlt), fun _ => ?_, le_refl _⟩
      refine ⟨rfl, rfl, rfl, fun _ => ⟨fun hne => ?_, fun _ => rfl⟩⟩
      exact absurd (not_not.mp h2) hne
  · rw [if_neg hdue] at hres
    simp only [Except.ok.injEq, Prod.mk.injEq] at hres
    obtain ⟨ht, hevs⟩ := hres
    subst ht
    subst hevs
    exact ⟨fun _ => ⟨rfl, rfl⟩, fun h => absurd h hdue, le_refl _⟩

/-- Concrete tracker state at the retry threshold, used by witnesses and
the C9 counterexample. -/
def tretry : tcping :=
  { initialTcping uFix 0 with ongoingUnsuccessfulProbes := 3 }

/-- Witness for C6 at a concrete state: three consecutive failures meet the
threshold of 3, resolution yields address 9 ≠ 5, and the history grows. -/
theorem retryResolveHostname_spec_witness :
    tretry.hostnameChanges.length
      ≤ ({ tretry with
            userInput := { uFix with ip := 9 },
            ongoingUnsuccessfulProbes := 0,
            retriedHostnameLookups := 1,
            hostnameChanges := tretry.hostnameChanges ++ [⟨9, 7⟩] } : tcping).hostnameChanges.length :=
  (retryResolveHostname_spec tretry none (some [9]) 0 7 9
      ({ tretry with
          userInput := { uFix with ip := 9 },
          ongoingUnsuccessfulProbes := 0,
          retriedHostnameLookups := 1,
          hostnameChanges := tretry.hostnameChanges ++ [⟨9, 7⟩] })
      [event.retryingResolve] rfl rfl).2.2

/-- Streak-counter effect of `retryResolveHostname`: the success streak is
never touched, and the failure streak is either zeroed (when the retry
fired) or the whole state is unchanged. -/
theorem retryResolveHostname_streaks (t : tcping) (pl : Option ℕ)
    (lk : Option (List ℕ)) (pk : ℕ) (now : Int) (p : tcping × List event)
    (h : retryResolveHostname t pl lk pk now = Except.ok p) :
    p.1.ongoingSuccessfulProbes = t.ongoingSuccessfulProbes ∧
    (t.userInput.retryHostnameLookupAfter ≤ t.ongoingUnsuccessfulProbes ∨ p.1 = t) ∧
    (p.1.ongoingUnsuccessfulProbes = 0 ∨ p.1 = t) := by
  unfold retryResolveHostname at h
  by_cases hdue : t.ongoingUnsuccessfulProbes ≥ t.userInput.retryHostnameLookupAfter
  · rw [if_pos hdue] at h
    cases hr : resolveHostname t pl lk pk with
    | error e =>
      rw [hr] at h
      exact absurd h (by simp)
    | ok newIp =>
      rw [hr] at h
      dsimp only at h
      split_ifs at h with h1 h2 <;>
        · simp only [Except.ok.injEq] at h
          subst h
          exact ⟨rfl, Or.inl hdue, Or.inl rfl⟩
  · rw [if_neg hdue] at h
    simp only [Except.ok.injEq] at h
    subst h
    exact ⟨rfl, Or.inr rfl, Or.inr rfl⟩

/-- Tracker state after three consecutive failed probes from a fresh
session. -/
def tFail3 : tcping :=
  (handleConnError
    (handleConnError (handleConnError (initialTcping uFix 0) 1 10).1 2 10).1
    3 10).1

/-- Tracker state after `tFail3` is followed by a due retry-resolve that
re-resolves to the same address. -/
def tAfterRetry : tcping :=
  ((step tFail3 (probeInput.retry none (some [5]) 0 7)).toOption).getD tFail3

/-- Counterexample to C9 as stated: after three failures the failure streak
is 3 and the target is Down; a due retry-resolve then resets the failure
streak to 0 although no Down→Up transition occurs (the target stays Down),
so streaks do decrease outside transitions. -/
theorem streaks_claim_counterexample :
    tFail3.ongoingUnsuccessfulProbes = 3 ∧
    tFail3.destWasDown = true ∧
    tAfterRetry.ongoingUnsuccessfulProbes = 0 ∧
    tAfterRetry.destWasDown = true := by
  decide

/-- Amended C9: over every loop input, the success streak decreases only at
a Down→Up transition probe (where it restarts at 1 and the failure streak
is zeroed), and the failure streak decreases only at such a transition or
when the retry-resolve policy fires (failure count at or above the
threshold); no other input decreases either streak. -/
theorem streaks_spec (t : tcping) (i : probeInput) (t' : tcping)
    (hs : step t i = Except.ok t') :
    (t'.ongoingSuccessfulProbes < t.ongoingSuccessfulProbes →
      t.destWasDown = true ∧
      ∃ sa rtt ct e, i = probeInput.success sa rtt ct e) ∧
    (t'.ongoingUnsuccessfulProbes < t.ongoingUnsuccessfulProbes →
      (t.destWasDown = true ∧
        ∃ sa rtt ct e, i = probeInput.success sa rtt ct e) ∨
      ((∃ pl lk pk now, i = probeInput.retry pl lk pk now) ∧
        t.userInput.retryHostnameLookupAfter ≤ t.ongoingUnsuccessfulProbes)) ∧
    (∀ sa rtt ct e, i = probeInput.success sa rtt ct e → t.destWasDown = true →
      t'.ongoingSuccessfulProbes = 1 ∧ t'.ongoingUnsuccessfulProbes = 0) := by
  cases i with
  | success sa rtt ct e =>
    simp only [step, Except.ok.injEq] at hs
    subst hs
    have hf := handleConnSuccess_fields t sa rtt ct e
    refine ⟨?_, ?_, ?_⟩
    · intro hlt
      rw [hf.1] at hlt
      by_cases hd : t.destWasDown = true
      · exact ⟨hd, sa, rtt, ct, e, rfl⟩
      · rw [if_neg hd] at hlt
        omega
    · intro hlt
      rw [hf.2.1] at hlt
      by_cases hd : t.destWasDown = true
      · exact Or.inl ⟨hd, sa, rtt, ct, e, rfl⟩
      · rw [if_neg hd] at hlt
        omega
    · intro sa' rtt' ct' e' _ hdw
      exact ⟨by rw [hf.1, if_pos hdw], by rw [hf.2.1, if_pos hdw]⟩
  | failure ct e =>
    simp only [step, Except.ok.injEq] at hs
    subst hs
    have hf := handleConnError_fields t ct e
    refine ⟨?_, ?_, fun sa' rtt' ct' e' heq => nomatch heq⟩
    · intro hlt
      rw [hf.1] at hlt
      omega
    · intro hlt
      rw [hf.2.1] at hlt
      omega
  | retry pl lk pk now =>
    simp only [step] at hs
    cases hh : retryResolveHostname t pl lk pk now with
    | error e =>
      rw [hh] at hs
      exact absurd hs (by simp [Except.map])
    | ok p =>
      rw [hh] at hs
      simp only [Except.map, Except.ok.injEq] at hs
      subst hs
      have hf := retryResolveHostname_streaks t pl lk pk now p hh
      refine ⟨?_, ?_, fun sa' rtt' ct' e' heq => nomatch heq⟩
      · intro hlt
        rw [hf.1] at hlt
        omega
      · intro hlt
        rcases hf.2.2 with h0 | heq
        · rcases hf.2.1 with hdue | heq2
          · exact Or.inr ⟨⟨pl, lk, pk, now, rfl⟩, hdue⟩
          · rw [heq2] at hlt
            omega
        · rw [heq] at hlt
          omega
  | snapshot now =>
    simp only [step, Except.ok.injEq] at hs
    subst hs
    have hf := printStats_streaks t now
    refine ⟨?_, ?_, fun sa' rtt' ct' e' heq => nomatch heq⟩
    · intro hlt
      rw [hf.1] at hlt
      omega
    · intro hlt
      rw [hf.2] at hlt
      omega

/-- Witness for the amended C9 at a concrete transition: the recovery probe
out of `tDown` leaves a success streak of exactly 1 and a failure streak of
0. -/
theorem streaks_spec_witness :
    (handleConnSuccess tDown sAddr 12 9 10).1.ongoingSuccessfulProbes = 1 ∧
    (handleConnSuccess tDown sAddr 12 9 10).1.ongoingUnsuccessfulProbes = 0 :=
  (streaks_spec tDown (probeInput.success sAddr 12 9 10)
      (handleConnSuccess tDown sAddr 12 9 10).1 rfl).2.2
    sAddr 12 9 10 rfl rfl

/-- C10: in every state reachable through the two tracker entry points, the
number of stored RTT samples equals `totalSuccessfulProbes`;
`handleConnSuccess` appends exactly one sample and increments the counter
by exactly one, while `handleConnError` changes neither. -/
theorem rtt_sample_count_invariant :
    (∀ t : tcping, ReachableT t → t.rtt.length = t.totalSuccessfulProbes) ∧
    (∀ (t : tcping) (sa : String) (rtt : ℚ) (ct e : Int),
      (handleConnSuccess t sa rtt ct e).1.rtt.length = t.rtt.length + 1 ∧
      (handleConnSuccess t sa rtt ct e).1.totalSuccessfulProbes
        = t.totalSuccessfulProbes + 1) ∧
    (∀ (t : tcping) (ct e : Int),
      (handleConnError t ct e).1.rtt = t.rtt ∧
      (handleConnError t ct e).1.totalSuccessfulProbes
        = t.totalSuccessfulProbes) := by
  refine ⟨?_, ?_, ?_⟩
  · intro t h
    induction h with
    | init u seedTime => simp [initialTcping]
    | succ t sa rtt ct e ht ih =>
      have hf := handleConnSuccess_fields t sa rtt ct e
      rw [hf.2.2.2.1, hf.2.2.1, List.length_append, ih]
      rfl
    | fail t ct e ht ih =>
      have hf := handleConnError_fields t ct e
      rw [hf.2.2.2.1, hf.2.2.1]
      exact ih
  · intro t sa rtt ct e
    have hf := handleConnSuccess_fields t sa rtt ct e
    exact ⟨by rw [hf.2.2.2.1, List.length_append]; rfl, hf.2.2.1⟩
  · intro t ct e
    have hf := handleConnError_fields t ct e
    exact ⟨hf.2.2.2.1, hf.2.2.1⟩

/-- Witness for C10 at a concrete reachable state: the fresh session
satisfies the sample-count invariant. -/
theorem rtt_sample_count_invariant_witness :
    (initialTcping uFix 0).rtt.length
      = (initialTcping uFix 0).totalSuccessfulProbes :=
  rtt_sample_count_invariant.1 (initialTcping uFix 0) (ReachableT.init uFix 0)

end Tcping
